import Mathlib

/-!
# Verification of the weather-addon solar feature-derivation engine

Shallow embedding of the repository's core computation:

* `src/compute.py` — solar geometry, extraterrestrial irradiance (GHI₀),
  Haurwitz clear-sky GHI, Erbs decomposition, sunshine estimator, and
  `derive_hourly_features`.  Python floats are modelled as real numbers.
* `src/weather/main.py` (lines 103–186) — the per-hour record merge
  `{**h, **derived}` and the daily fold grouping hourly records by UTC
  calendar date.  The fold touches only rational arithmetic, so it is
  modelled over `ℚ` to keep it executable.

Python dictionary fields that may be *absent*, *null* (`None`) or a number
are modelled as `Option (Option ℚ)` / `Option (Option ℝ)`:
`none` = key absent, `some none` = key present with value `None`,
`some (some v)` = key present with numeric value `v`.
`dict.get(k)` collapses absent and null to `None`, i.e. `Option.join`.
Python's `float(None)` raises `TypeError`; fallible code returns `Except`.
-/

set_option linter.unusedVariables false

namespace WeatherAddon

/-! ## compute.py : constants and helpers -/

/-- `I_SC = 1367.0` — solar constant (compute.py line 10). -/
def I_SC : ℝ := 1367

/-- `math.radians` / `_to_rad` (compute.py lines 13–14). -/
noncomputable def toRad (deg : ℝ) : ℝ := deg * Real.pi / 180

/-! ## compute.py : Erbs diffuse-fraction segments (lines 64–70)

The three-segment piecewise polynomial giving the diffuse fraction as a
function of the clearness index `kt`.  The segments are named so the
boundary behaviour at `kt = 0.22` and `kt = 0.8` can be stated. -/

/-- Segment for `kt ≤ 0.22`: `df = 1.0 - 0.09 * kt` (compute.py line 65). -/
noncomputable def dfLow (kt : ℝ) : ℝ := 1 - 0.09 * kt

/-- Segment for `0.22 < kt ≤ 0.8`:
`df = 0.9511 - 0.1604*kt + 4.388*kt**2 - 16.638*kt**3 + 12.336*kt**4`
(compute.py line 67). -/
noncomputable def dfMid (kt : ℝ) : ℝ :=
  0.9511 - 0.1604 * kt + 4.388 * kt ^ 2 - 16.638 * kt ^ 3 + 12.336 * kt ^ 4

/-- Segment for `kt > 0.8`: `df = 0.165` (compute.py line 69). -/
noncomputable def dfHigh : ℝ := 0.165

/-- The full `if kt <= 0.22 / elif kt <= 0.8 / else` dispatch
(compute.py lines 64–69). -/
noncomputable def erbsDf (kt : ℝ) : ℝ :=
  if kt ≤ 0.22 then dfLow kt
  else if kt ≤ 0.8 then dfMid kt
  else dfHigh

/-! ## compute.py : irradiance models -/

/-- `extraterrestrial_horizontal(lat, when_utc, zenith_deg)`
(compute.py lines 32–41).  The instant is represented by the only part the
function reads, `when_utc.timetuple().tm_yday` (the day of year `n`).
The `lat` parameter is kept although the body never reads it. -/
noncomputable def extraterrestrial_horizontal (lat : ℝ) (n : ℕ) (zenith_deg : ℝ) : ℝ :=
  let cosz := max 0 (Real.cos (toRad zenith_deg))
  if cosz ≤ 0 then 0
  else I_SC * (1 + 0.033 * Real.cos (2 * Real.pi * n / 365)) * cosz

/-- `clearsky_ghi_haurwitz(zenith_deg)` (compute.py lines 44–52). -/
noncomputable def clearsky_ghi_haurwitz (zenith_deg : ℝ) : ℝ :=
  let cosz := max 0 (Real.cos (toRad zenith_deg))
  if cosz ≤ 0 then 0
  else 1098 * cosz * Real.exp (-0.059 / max 1e-6 cosz)

/-- Result dict `{"dni": ..., "dhi": ...}` of `erbs_decomposition`. -/
structure ErbsOut where
  dni : ℝ
  dhi : ℝ

/-- `erbs_decomposition(ghi, ghi0, zenith_deg)` (compute.py lines 55–73). -/
noncomputable def erbs_decomposition (ghi ghi0 zenith_deg : ℝ) : ErbsOut :=
  let cosz := max 0 (Real.cos (toRad zenith_deg))
  if ghi ≤ 0 ∨ cosz ≤ 0 ∨ ghi0 ≤ 0 then
    { dni := 0, dhi := max 0 ghi }
  else
    let kt := min 2 (ghi / ghi0)
    let df := max 0 (min 1 (erbsDf kt))
    let dhi := df * ghi
    { dni := max 0 ((ghi - dhi) / max 1e-6 cosz), dhi := dhi }

/-- `sunshine_duration_hour_from_ghi(ghi_w_m2, threshold=120.0)`
(compute.py lines 76–80).  The argument is always an already-resolved
float in this repository, for which `(ghi_w_m2 or 0.0)` is the identity
(Python maps `0.0` to `0.0`). -/
noncomputable def sunshine_duration_hour_from_ghi (ghi_w_m2 : ℝ) (threshold : ℝ := 120) : ℝ :=
  if threshold ≤ ghi_w_m2 then 3600 else 0

/-! ## compute.py : solar geometry and the hourly derivation

`solar_geometry` (compute.py lines 20–29) delegates to the external
`astral.sun` library for the sun's elevation and azimuth.  `astral` is not
part of this repository, so it is modelled as an abstract pair of functions
handed to the computation; everything the repository itself does with the
result (`zen = max(0.0, 90.0 - el)`, and all downstream models) is embedded
faithfully.  A UTC instant carries the fields the repository reads. -/

/-- A UTC instant truncated to hour granularity.  `dayOfYear` is
`when_utc.timetuple().tm_yday`; the remaining structure of the datetime is
consumed only by the external `astral` library, which receives the instant
opaquely. -/
structure Instant where
  dayOfYear : ℕ
  hourOfDay : ℕ
deriving DecidableEq

/-- The external `astral.sun` library: `elevation(lat, lon, when_utc)` and
`azimuth(lat, lon, when_utc)` in degrees. -/
structure Astral where
  elevation : ℝ → ℝ → Instant → ℝ
  azimuth : ℝ → ℝ → Instant → ℝ

/-- Result of `solar_geometry` (compute.py lines 25–29). -/
structure SolarGeometry where
  sun_elevation_deg : ℝ
  sun_azimuth_deg : ℝ
  sun_zenith_deg : ℝ

/-- `solar_geometry(lat, lon, when_utc)` (compute.py lines 20–29). -/
noncomputable def solar_geometry (A : Astral) (lat lon : ℝ) (when_utc : Instant) :
    SolarGeometry :=
  let el := A.elevation lat lon when_utc
  let az := A.azimuth lat lon when_utc
  { sun_elevation_deg := el
    sun_azimuth_deg := az
    sun_zenith_deg := max 0 (90 - el) }

/-- A raw hourly provider record (the `raw` dict of `derive_hourly_features`
and the `h` dict of main.py line 105).  Only the fields the verified claims
touch are modelled; the remaining passenger fields (temperature, wind, …)
are never read by the derivation and merge through unchanged.
`none` = key absent, `some none` = key present but null,
`some (some v)` = numeric value. -/
structure RawHourly where
  ts_utc : String
  ghi_w_m2 : Option (Option ℝ)
  dni_w_m2 : Option (Option ℝ)
  dhi_w_m2 : Option (Option ℝ)
  cloud_cover_pct : Option (Option ℝ)

/-- The configuration bag `cfg` built in main.py lines 94–101. -/
structure Cfg where
  pv_capacity_kw : ℝ
  tilt_deg : ℝ
  albedo : ℝ
  gamma_p_pct_per_c : ℝ
  noct_cell_temp_c : ℝ
  inverter_ac_limit_kw : ℝ

/-- Python `d.get(k)` on a possibly-absent, possibly-null field: absent and
null both give `None`. -/
def pyGet {α : Type} (x : Option (Option α)) : Option α := x.join

/-- Python `float(d.get(k) or 0.0)`: `None` and `0.0` are falsy, any other
float is returned unchanged (`float` is the identity on floats). -/
def pyGetOr0 (x : Option (Option ℝ)) : ℝ :=
  match x.join with
  | none => 0
  | some v => v

/-- The dict returned by `derive_hourly_features` (compute.py lines 109–116).
It holds exactly the seven keys the source writes into `out`; in particular
it has **no** `dni_w_m2` / `dhi_w_m2` keys. -/
structure Derived where
  sun_elevation_deg : ℝ
  sun_azimuth_deg : ℝ
  sun_zenith_deg : ℝ
  ghi_cs_w_m2 : ℝ
  k_ghi : ℝ
  k_dni : ℝ
  sunshine_duration_s_hour : ℝ

/-- `derive_hourly_features(latitude, longitude, ts_utc, cfg, raw)`
(compute.py lines 83–117).  `A` stands for the external `astral` library. -/
noncomputable def derive_hourly_features (A : Astral) (latitude longitude : ℝ)
    (ts_utc : Instant) (cfg : Cfg) (raw : RawHourly) : Derived :=
  let sun := solar_geometry A latitude longitude ts_utc
  let zen := sun.sun_zenith_deg
  let ghi0 := extraterrestrial_horizontal latitude ts_utc.dayOfYear zen
  let ghi_cs := clearsky_ghi_haurwitz zen
  -- "Use provider GHI if available, else 0" (line 99)
  let ghi := pyGetOr0 raw.ghi_w_m2
  -- "Decompose into DNI/DHI using Erbs; fall back to provider fields if
  -- present" (lines 101–105): the pass-through branch fires only when both
  -- fields are present and non-null, and `float(x or 0.0)` is then the
  -- identity on the numeric value.
  let ed :=
    match pyGet raw.dni_w_m2, pyGet raw.dhi_w_m2 with
    | some d, some h => ({ dni := d, dhi := h } : ErbsOut)
    | _, _ => erbs_decomposition ghi ghi0 zen
  let k_ghi := if 0 < ghi_cs then ghi / ghi_cs else 0
  let k_dni :=
    if 0 < ghi_cs ∧ 0 < Real.cos (toRad zen) then
      ed.dni / (ghi_cs / max 1e-6 (Real.cos (toRad zen)))
    else 0
  { sun_elevation_deg := sun.sun_elevation_deg
    sun_azimuth_deg := sun.sun_azimuth_deg
    sun_zenith_deg := sun.sun_zenith_deg
    ghi_cs_w_m2 := ghi_cs
    k_ghi := max 0 (min 2 k_ghi)
    k_dni := max 0 (min 2 k_dni)
    sunshine_duration_s_hour := sunshine_duration_hour_from_ghi ghi }

/-! ## main.py : the merged hourly output record (lines 115–128)

`rec = { metadata…, **h, **derived }`.  The `derived` dict holds exactly the
seven keys of `Derived`, so for every other key the merged record keeps the
raw dict's entry; metadata and passenger fields are omitted here because no
claim reads them. -/

/-- The hourly output record written to the hourly log and published over
MQTT (main.py lines 115–128). -/
structure HourlyRec where
  ts_utc : String
  ghi_w_m2 : Option (Option ℝ)
  dni_w_m2 : Option (Option ℝ)
  dhi_w_m2 : Option (Option ℝ)
  cloud_cover_pct : Option (Option ℝ)
  sun_elevation_deg : ℝ
  sun_azimuth_deg : ℝ
  sun_zenith_deg : ℝ
  ghi_cs_w_m2 : ℝ
  k_ghi : ℝ
  k_dni : ℝ
  sunshine_duration_s_hour : ℝ

/-- The dict-merge `{**h, **derived}` (main.py lines 115–128): keys present
in `derived` override `h`, all other keys come from `h` unchanged.  Since
`derived` has exactly the seven `Derived` keys, the four raw irradiance /
cloud fields and `ts_utc` come from `h`. -/
noncomputable def buildHourlyRec (h : RawHourly) (derived : Derived) : HourlyRec :=
  { ts_utc := h.ts_utc
    ghi_w_m2 := h.ghi_w_m2
    dni_w_m2 := h.dni_w_m2
    dhi_w_m2 := h.dhi_w_m2
    cloud_cover_pct := h.cloud_cover_pct
    sun_elevation_deg := derived.sun_elevation_deg
    sun_azimuth_deg := derived.sun_azimuth_deg
    sun_zenith_deg := derived.sun_zenith_deg
    ghi_cs_w_m2 := derived.ghi_cs_w_m2
    k_ghi := derived.k_ghi
    k_dni := derived.k_dni
    sunshine_duration_s_hour := derived.sunshine_duration_s_hour }

/-! ## main.py : the daily fold (lines 137–186)

The fold reads only `ts_utc`, `ghi_w_m2`, `cloud_cover_pct` and
`sunshine_duration_s_hour` of each merged hourly record, and only rational
arithmetic is involved, so this stage is modelled executably over `ℚ`.
`sunshine_duration_s_hour` always comes from the derived dict and is hence
always a number; the three-state encoding is kept for the raw fields. -/

/-- Projection of a merged hourly record to the fields the daily fold reads
(main.py lines 148–153). -/
structure FoldRec where
  ts_utc : String
  ghi_w_m2 : Option (Option ℚ)
  cloud_cover_pct : Option (Option ℚ)
  sunshine_duration_s_hour : ℚ
deriving DecidableEq

/-- A provider daily record (`fc["daily"]`, built in
src/weather/providers/open_meteo.py lines 122–133); only the fields the
fold reads are modelled. -/
structure ProvDaily where
  date_utc : String
  sunshine_duration_s : Option (Option ℚ)
deriving DecidableEq

/-- The daily aggregate record (main.py lines 158–183); provider pass-through
fields (sunrise, temperatures, …) and the config snapshot are omitted
because no claim reads them. -/
structure DailyAgg where
  date_utc : String
  sunshine_duration_s : ℚ
  ghi_daily_total_mj_m2 : ℚ
  cloud_cover_day_mean_pct : ℚ
deriving DecidableEq

/-- `day = r["ts_utc"][0:10]` (main.py line 140). -/
def dayOf (r : FoldRec) : String := r.ts_utc.take 10

/-- One step of `by_day.setdefault(day, []).append(r)` (main.py line 141) on
an insertion-ordered dict, modelled as an association list: append `r` to the
bucket of its day, creating the bucket at the end on first sight. -/
def addRec : List (String × List FoldRec) → FoldRec → List (String × List FoldRec)
  | [], r => [(dayOf r, [r])]
  | (d, g) :: rest, r =>
    if dayOf r = d then (d, g ++ [r]) :: rest
    else (d, g) :: addRec rest r

/-- The grouping loop of main.py lines 138–141. -/
def byDay (rs : List FoldRec) : List (String × List FoldRec) :=
  rs.foldl addRec []

/-- `float(r.get(k, 0.0))` (main.py lines 149, 152): an absent key defaults
to `0.0`; a key present with value `None` reaches `float(None)`, which
raises `TypeError`. -/
def pyFloatGet (x : Option (Option ℚ)) : Except String ℚ :=
  match x with
  | none => .ok 0
  | some none => .error "TypeError: float() argument must be a string or a real number, not NoneType"
  | some (some v) => .ok v

/-- One iteration of the accumulation loop of main.py lines 148–153 over the
running `(ghi_mj_m2, cloud_sum, sunshine_s)` totals. -/
def stepDay (acc : ℚ × ℚ × ℚ) (r : FoldRec) : Except String (ℚ × ℚ × ℚ) := do
  let ghi ← pyFloatGet r.ghi_w_m2
  let cl ← pyFloatGet r.cloud_cover_pct
  -- `sunshine_duration_s_hour` is always a number in the merged record
  -- (the derived dict always supplies it), so `float(r.get(k, 0.0))` is it.
  .ok (acc.1 + ghi * 3600 / 1000000, acc.2.1 + cl, acc.2.2 + r.sunshine_duration_s_hour)

/-- The accumulation loop of main.py lines 145–153 (totals start at `0.0`). -/
def sumDay (recs : List FoldRec) : Except String (ℚ × ℚ × ℚ) :=
  recs.foldlM stepDay (0, 0, 0)

/-- Python `x or fallback` on an optional float: `None` and `0.0` are falsy
(main.py line 169). -/
def pyOr (x : Option ℚ) (fallback : ℚ) : ℚ :=
  match x with
  | none => fallback
  | some v => if v = 0 then fallback else v

/-- `next((d for d in fc["daily"] if d["date_utc"] == day), {})`
(main.py line 157): the first provider daily record with a matching date,
if any. -/
def provLookup (daily : List ProvDaily) (day : String) : Option ProvDaily :=
  daily.find? (fun d => d.date_utc == day)

/-- Build one `daily_rec` (main.py lines 143–183) for a date group. -/
def mkDaily (daily : List ProvDaily) (day : String) (recs : List FoldRec) :
    Except String DailyAgg := do
  let sums ← sumDay recs
  let cloud_mean := sums.2.1 / max 1 (recs.length : ℚ)
  let dprov := provLookup daily day
  .ok { date_utc := day
        sunshine_duration_s := pyOr (dprov.bind (fun p => p.sunshine_duration_s.join)) sums.2.2
        ghi_daily_total_mj_m2 := sums.1
        cloud_cover_day_mean_pct := cloud_mean }

/-- The whole daily stage of main.py lines 137–186: group the merged hourly
records by UTC date, then emit one aggregate per group in insertion order.
The first raised `TypeError` aborts the stage (it propagates to the
cycle-level `except` at main.py line 246). -/
def dailyFold (hs : List FoldRec) (daily : List ProvDaily) :
    Except String (List DailyAgg) :=
  (byDay hs).mapM (fun p => mkDaily daily p.1 p.2)

/-! ## Specification-side helpers for reasoning about the daily fold

These are not part of the embedded program: they are the closed-form
values the fold is claimed to produce, stated from the source's own
arithmetic so the theorems can compare the fold's output with them. -/

/-- The numeric value the fold's defaulting reaches for a field that is
present (`some (some v) ↦ v`) or absent (`↦ 0`); the null case is the
`TypeError` case and is excluded by hypothesis wherever this is used. -/
def qval (x : Option (Option ℚ)) : ℚ :=
  match x.join with
  | none => 0
  | some v => v

/-- The records of `hs` belonging to UTC date `d`. -/
def groupOf (hs : List FoldRec) (d : String) : List FoldRec :=
  hs.filter (fun r => dayOf r == d)

/-- `Σ ghi·3600/1e6` over a list of records. -/
def sumGhiM (recs : List FoldRec) : ℚ :=
  (recs.map (fun r => qval r.ghi_w_m2 * 3600 / 1000000)).sum

/-- `Σ cloud_cover_pct` over a list of records. -/
def sumCloud (recs : List FoldRec) : ℚ :=
  (recs.map (fun r => qval r.cloud_cover_pct)).sum

/-- `Σ sunshine_duration_s_hour` over a list of records. -/
def sumSunshine (recs : List FoldRec) : ℚ :=
  (recs.map (fun r => r.sunshine_duration_s_hour)).sum

/-- The provider daily sunshine value reaching `or` on main.py line 169:
`dprov.get("sunshine_duration_s")` of the first matching daily record. -/
def provJoined (daily : List ProvDaily) (d : String) : Option ℚ :=
  (provLookup daily d).bind (fun p => p.sunshine_duration_s.join)

/-- The closed-form aggregate for date `d` of input `hs`. -/
def aggOf (daily : List ProvDaily) (hs : List FoldRec) (d : String) : DailyAgg :=
  { date_utc := d
    sunshine_duration_s := pyOr (provJoined daily d) (sumSunshine (groupOf hs d))
    ghi_daily_total_mj_m2 := sumGhiM (groupOf hs d)
    cloud_cover_day_mean_pct := sumCloud (groupOf hs d) / max 1 ((groupOf hs d).length : ℚ) }

/-- First-match lookup in an association list (how a Python dict read is
realised on the `byDay` association list). -/
def getGroup : List (String × List FoldRec) → String → List FoldRec
  | [], _ => []
  | (d, g) :: rest, k => if d = k then g else getGroup rest k

/-! ## Concrete fixtures used by witnesses and counterexamples -/

/-- A concrete stand-in for the external `astral` library: the sun at
elevation 45°, azimuth 180° for every location and instant. -/
noncomputable def astral0 : Astral :=
  { elevation := fun _ _ _ => 45, azimuth := fun _ _ _ => 180 }

/-- A concrete configuration bag (the add-on's documented defaults). -/
noncomputable def cfg0 : Cfg :=
  { pv_capacity_kw := 3, tilt_deg := 35, albedo := 0.2
    gamma_p_pct_per_c := -0.4, noct_cell_temp_c := 45
    inverter_ac_limit_kw := 3 }

/-- A raw hourly record carrying provider DNI/DHI (`300`/`100`, the spec's
pass-through example). -/
noncomputable def rawWithDniDhi : RawHourly :=
  { ts_utc := "2024-06-01T12:00:00Z"
    ghi_w_m2 := some (some 500)
    dni_w_m2 := some (some 300)
    dhi_w_m2 := some (some 100)
    cloud_cover_pct := some (some 20) }

/-- A raw hourly record with GHI but without provider DNI/DHI (both keys
absent), forcing the Erbs fallback path. -/
noncomputable def rawNoDniDhi : RawHourly :=
  { ts_utc := "2024-06-01T12:00:00Z"
    ghi_w_m2 := some (some 500)
    dni_w_m2 := none
    dhi_w_m2 := none
    cloud_cover_pct := some (some 20) }

/-- A concrete instant: day-of-year 153, hour 12 UTC. -/
def t0 : Instant := { dayOfYear := 153, hourOfDay := 12 }

/-- Three synthetic hourly records on the same UTC date with
GHI = 0, 500, 1000 W/m² (the spec's daily-fold example). -/
def hs3 : List FoldRec :=
  [ { ts_utc := "2024-06-01T10:00:00Z", ghi_w_m2 := some (some 0)
      cloud_cover_pct := some (some 0), sunshine_duration_s_hour := 0 }
  , { ts_utc := "2024-06-01T11:00:00Z", ghi_w_m2 := some (some 500)
      cloud_cover_pct := some (some 40), sunshine_duration_s_hour := 3600 }
  , { ts_utc := "2024-06-01T12:00:00Z", ghi_w_m2 := some (some 1000)
      cloud_cover_pct := some (some 80), sunshine_duration_s_hour := 3600 } ]

/-- A provider daily record carrying a truthy daily sunshine figure. -/
def prov1 : List ProvDaily :=
  [ { date_utc := "2024-06-01", sunshine_duration_s := some (some 7200) } ]

/-- A merged hourly record whose `cloud_cover_pct` key is present with value
null — exactly what the Open-Meteo client produces when the API returns
JSON `null` for an hour (open_meteo.py line 96 copies values through). -/
def recNullCloud : FoldRec :=
  { ts_utc := "2024-06-01T10:00:00Z", ghi_w_m2 := some (some 500)
    cloud_cover_pct := some none, sunshine_duration_s_hour := 3600 }

/-- The same record with the `cloud_cover_pct` key absent instead of null. -/
def recAbsentCloud : FoldRec :=
  { ts_utc := "2024-06-01T10:00:00Z", ghi_w_m2 := some (some 500)
    cloud_cover_pct := none, sunshine_duration_s_hour := 3600 }

/-! ## Reference definition of the Erbs decomposition, from the spec

Written from the words of spec §4.4 (and claim C2), to be compared with the
source-derived `erbs_decomposition`:
"If GHI₀ ≤ 0 or GHI ≤ 0 or cosZ ≤ 0: DNI = 0, DHI = max(0, GHI).  Otherwise
 kt = min(2, GHI/GHI₀); df by the three-segment piecewise polynomial,
 clamped to [0,1]; DHI = df·GHI; DNI = max(0, (GHI − DHI)/max(cosZ, ε))"
with ε = 1e-6 (spec §4.3). -/

/-- The Erbs decomposition exactly as the spec words it. -/
noncomputable def erbs_decomposition_spec (ghi ghi0 zenith_deg : ℝ) : ErbsOut :=
  if ghi ≤ 0 ∨ ghi0 ≤ 0 ∨ Real.cos (toRad zenith_deg) ≤ 0 then
    { dni := 0, dhi := max 0 ghi }
  else
    let kt := min 2 (ghi / ghi0)
    let df0 :=
      if kt ≤ 0.22 then 1 - 0.09 * kt
      else if kt ≤ 0.8 then
        0.9511 - 0.1604 * kt + 4.388 * kt ^ 2 - 16.638 * kt ^ 3 + 12.336 * kt ^ 4
      else 0.165
    let df := max 0 (min 1 df0)
    let dhi := df * ghi
    { dni := max 0 ((ghi - dhi) / max (Real.cos (toRad zenith_deg)) 1e-6), dhi := dhi }

/-! ## Claim theorems -/

/-- **C2**: for every `ghi`, `ghi0` and `zenith_deg`, `erbs_decomposition`
returns exactly the reference definition written from the spec: guard
`ghi ≤ 0 ∨ ghi0 ≤ 0 ∨ cos(zenith) ≤ 0` giving `dni = 0`,
`dhi = max 0 ghi`; otherwise `kt = min 2 (ghi/ghi0)`, the three-segment
diffuse fraction clamped to `[0,1]`, `dhi = df·ghi` and
`dni = max 0 ((ghi − dhi)/max (cos zenith) 1e-6)`. -/
theorem erbs_decomposition_matches_spec (ghi ghi0 zenith_deg : ℝ) :
    erbs_decomposition ghi ghi0 zenith_deg = erbs_decomposition_spec ghi ghi0 zenith_deg := by
  unfold erbs_decomposition erbs_decomposition_spec erbsDf dfLow dfMid dfHigh
  by_cases hg : ghi ≤ 0
  · simp [hg]
  by_cases h0 : ghi0 ≤ 0
  · simp [hg, h0]
  by_cases hc : Real.cos (toRad zenith_deg) ≤ 0
  · simp [hg, h0, hc]
  · have hc' : (0 : ℝ) < Real.cos (toRad zenith_deg) := lt_of_not_le hc
    have hmax : max 0 (Real.cos (toRad zenith_deg)) = Real.cos (toRad zenith_deg) :=
      max_eq_right hc'.le
    have h1 : ¬(ghi ≤ 0 ∨ Real.cos (toRad zenith_deg) ≤ 0 ∨ ghi0 ≤ 0) := by
      push_neg
      exact ⟨lt_of_not_le hg, hc', lt_of_not_le h0⟩
    have h2 : ¬(ghi ≤ 0 ∨ ghi0 ≤ 0 ∨ Real.cos (toRad zenith_deg) ≤ 0) := by
      push_neg
      exact ⟨lt_of_not_le hg, lt_of_not_le h0, hc'⟩
    simp only [hmax, if_neg h1, if_neg h2]
    rw [max_comm (1e-6 : ℝ) (Real.cos (toRad zenith_deg))]

/-- **C9 counterexample**: the adjoining Erbs segment formulas do *not*
agree at the breakpoint `kt = 0.8` up to a rounding-level tolerance: the
difference is exactly `0.0002696`, which exceeds `1e-6` (itself many orders
of magnitude above the rounding error of double-precision quantities of
order one).  The evaluation is exact rational arithmetic, so the jump is a
property of the published coefficients, not of rounding. -/
theorem erbs_df_jump_at_kt08 :
    dfMid 0.8 - dfHigh = 0.0002696 ∧ (1e-6 : ℝ) < dfMid 0.8 - dfHigh := by
  constructor <;> norm_num [dfMid, dfHigh]

/-- **C9 (amended)**: the Erbs diffuse-fraction segments are nearly — but
not exactly — continuous at the breakpoints: at `kt = 0.22` and `kt = 0.8`
the adjoining segment formulas differ by at most `3·10⁻⁴` (the exact jumps
are `0.00027240384` and `0.0002696`), a small but genuine discontinuity
rather than a rounding-level one. -/
theorem erbs_df_boundary_jumps_small :
    |dfLow 0.22 - dfMid 0.22| ≤ 0.0003 ∧ |dfMid 0.8 - dfHigh| ≤ 0.0003 := by
  constructor <;>
    · rw [abs_le]
      constructor <;> norm_num [dfLow, dfMid, dfHigh]

/-- **C6 (amended)**: for every zenith angle between `90°` and `270°` — in
particular every zenith the pipeline can produce, since
`zen = max 0 (90 − elevation) ∈ [0, 180]` — both `extraterrestrial_horizontal`
and `clearsky_ghi_haurwitz` return exactly `0`.  (The original claim's
unbounded "every zenith_deg ≥ 90" fails at e.g. `360°`, where the cosine is
positive again.) -/
theorem irradiance_zero_when_sun_below_horizon (lat : ℝ) (n : ℕ) (z : ℝ)
    (h1 : 90 ≤ z) (h2 : z ≤ 270) :
    extraterrestrial_horizontal lat n z = 0 ∧ clearsky_ghi_haurwitz z = 0 := by
  have hcos : Real.cos (toRad z) ≤ 0 := by
    apply Real.cos_nonpos_of_pi_div_two_le_of_le
    · unfold toRad
      nlinarith [Real.pi_pos]
    · unfold toRad
      nlinarith [Real.pi_pos]
  have hmax : max 0 (Real.cos (toRad z)) = 0 := max_eq_left hcos
  constructor
  · simp [extraterrestrial_horizontal, hmax]
  · simp [clearsky_ghi_haurwitz, hmax]

/-- Witness for the amended C6 theorem at the concrete input `z = 90°`. -/
theorem irradiance_zero_when_sun_below_horizon_witness :
    extraterrestrial_horizontal 0 1 90 = 0 ∧ clearsky_ghi_haurwitz 90 = 0 :=
  irradiance_zero_when_sun_below_horizon 0 1 90 (by norm_num) (by norm_num)

/-- **C6 counterexample**: at the concrete input `zenith_deg = 360 ≥ 90`
(where `cos` is positive again) both models return a non-zero value, so the
claim "for every zenith_deg ≥ 90 … return exactly 0.0" is false as stated. -/
theorem irradiance_nonzero_at_zenith_360 :
    (90 : ℝ) ≤ 360 ∧ clearsky_ghi_haurwitz 360 ≠ 0 ∧
      extraterrestrial_horizontal 0 1 360 ≠ 0 := by
  have hcos : Real.cos (toRad 360) = 1 := by
    rw [show toRad 360 = 2 * Real.pi by unfold toRad; ring]
    exact Real.cos_two_pi
  have hmax : max 0 (Real.cos (toRad 360)) = 1 := by rw [hcos]; norm_num
  refine ⟨by norm_num, ?_, ?_⟩
  · have hexp : 0 < Real.exp (-0.059 / max 1e-6 1) := Real.exp_pos _
    have : clearsky_ghi_haurwitz 360 = 1098 * 1 * Real.exp (-0.059 / max 1e-6 1) := by
      simp [clearsky_ghi_haurwitz, hmax]
    rw [this]
    positivity
  · have he0 : 0 < 1 + 0.033 * Real.cos (2 * Real.pi * (1 : ℕ) / 365) := by
      nlinarith [Real.neg_one_le_cos (2 * Real.pi * (1 : ℕ) / 365)]
    have : extraterrestrial_horizontal 0 1 360
        = I_SC * (1 + 0.033 * Real.cos (2 * Real.pi * (1 : ℕ) / 365)) * 1 := by
      simp [extraterrestrial_horizontal, hmax]
    rw [this]
    have hI : (0 : ℝ) < I_SC := by norm_num [I_SC]
    exact ne_of_gt (by nlinarith)

/-- **C10**: `derive_hourly_features` never reads its `cfg` argument, so its
result is identical for any two configuration bags (hence no configuration
value can flow into the derived features). -/
theorem derive_hourly_features_cfg_independent (A : Astral) (lat lon : ℝ)
    (ts : Instant) (cfgA cfgB : Cfg) (raw : RawHourly) :
    derive_hourly_features A lat lon ts cfgA raw
      = derive_hourly_features A lat lon ts cfgB raw := rfl

/-- **C7**: for every input — any astral sun position, location, instant,
configuration and raw record — the derived record's clearness indices
satisfy `0 ≤ k_ghi ≤ 2` and `0 ≤ k_dni ≤ 2`. -/
theorem clearness_indices_clamped (A : Astral) (lat lon : ℝ) (ts : Instant)
    (cfg : Cfg) (raw : RawHourly) :
    0 ≤ (derive_hourly_features A lat lon ts cfg raw).k_ghi ∧
      (derive_hourly_features A lat lon ts cfg raw).k_ghi ≤ 2 ∧
      0 ≤ (derive_hourly_features A lat lon ts cfg raw).k_dni ∧
      (derive_hourly_features A lat lon ts cfg raw).k_dni ≤ 2 := by
  unfold derive_hourly_features
  refine ⟨le_max_left 0 _, max_le (by norm_num) (min_le_left 2 _),
    le_max_left 0 _, max_le (by norm_num) (min_le_left 2 _)⟩

/-- **C3**: whenever the raw record carries both `dni_w_m2` and `dhi_w_m2`
present and non-null, the merged hourly output record returns exactly the
provider values — the derived dict holds no `dni_w_m2`/`dhi_w_m2` keys, so
the merge `{**h, **derived}` keeps the raw entries whatever the GHI, GHI₀
and zenith are. -/
theorem dni_dhi_passthrough (A : Astral) (lat lon : ℝ) (ts : Instant)
    (cfg : Cfg) (h : RawHourly) (d v : ℝ)
    (hd : h.dni_w_m2 = some (some d)) (hv : h.dhi_w_m2 = some (some v)) :
    (buildHourlyRec h (derive_hourly_features A lat lon ts cfg h)).dni_w_m2
        = some (some d) ∧
      (buildHourlyRec h (derive_hourly_features A lat lon ts cfg h)).dhi_w_m2
        = some (some v) :=
  ⟨hd, hv⟩

/-- Witness for C3 at the spec's concrete pass-through example
(`dni_w_m2 = 300`, `dhi_w_m2 = 100`). -/
theorem dni_dhi_passthrough_witness :
    (buildHourlyRec rawWithDniDhi
        (derive_hourly_features astral0 50 14 t0 cfg0 rawWithDniDhi)).dni_w_m2
        = some (some 300) ∧
      (buildHourlyRec rawWithDniDhi
        (derive_hourly_features astral0 50 14 t0 cfg0 rawWithDniDhi)).dhi_w_m2
        = some (some 100) :=
  dni_dhi_passthrough astral0 50 14 t0 cfg0 rawWithDniDhi 300 100 rfl rfl

/-- **C1 (code bug)**: on a raw record that supplies no `dni_w_m2`/`dhi_w_m2`,
the merged hourly output record contains *no* such fields at all: the `out`
dict of `derive_hourly_features` (compute.py lines 109–116) omits the Erbs
results it just computed, so `{**h, **derived}` leaves the fields exactly as
the raw record had them (absent here).  The last two conjuncts show the Erbs
model itself produces non-trivial components for sunny inputs
(`ghi = 500`, `ghi0 = 1000`, `zenith = 0°`: DNI `170.425`, DHI `329.575`), not
degenerate. -/
theorem hourly_record_lacks_decomposed_dni_dhi :
    (buildHourlyRec rawNoDniDhi
        (derive_hourly_features astral0 50 14 t0 cfg0 rawNoDniDhi)).dni_w_m2 = none ∧
      (buildHourlyRec rawNoDniDhi
        (derive_hourly_features astral0 50 14 t0 cfg0 rawNoDniDhi)).dhi_w_m2 = none ∧
      (erbs_decomposition 500 1000 0).dni = 170.425 ∧
      (erbs_decomposition 500 1000 0).dhi = 329.575 := by
  have htr : toRad 0 = 0 := by unfold toRad; ring
  have hcos : Real.cos (toRad 0) = 1 := by rw [htr, Real.cos_zero]
  refine ⟨rfl, rfl, ?_, ?_⟩ <;>
    · norm_num [erbs_decomposition, erbsDf, dfLow, dfMid, hcos]

/-! ### Lemmas about the insertion-ordered grouping `byDay` -/

/-- `addRec` appends `r` to the bucket of its day and leaves every other
bucket unchanged. -/
lemma getGroup_addRec (acc : List (String × List FoldRec)) (r : FoldRec) (k : String) :
    getGroup (addRec acc r) k =
      if dayOf r = k then getGroup acc k ++ [r] else getGroup acc k := by
  induction acc with
  | nil =>
    simp only [addRec, getGroup]
    by_cases h : dayOf r = k
    · rw [if_pos h, if_pos h]
      rfl
    · rw [if_neg h, if_neg h]
  | cons p rest ih =>
    obtain ⟨d, g⟩ := p
    simp only [addRec]
    by_cases h1 : dayOf r = d
    · rw [if_pos h1]
      simp only [getGroup]
      by_cases h2 : d = k
      · rw [if_pos h2, if_pos (h1.trans h2), if_pos h2]
      · rw [if_neg h2, if_neg (fun hh => h2 (h1.symm.trans hh)), if_neg h2]
    · rw [if_neg h1]
      simp only [getGroup]
      by_cases h2 : d = k
      · rw [if_pos h2, if_neg (fun hh => h1 (hh.trans h2.symm)), if_pos h2]
      · rw [if_neg h2, if_neg h2]
        exact ih

/-- Folding records into the grouping dict: each key's bucket collects, in
order, exactly the records of that day. -/
lemma getGroup_foldl (rs : List FoldRec) :
    ∀ (acc : List (String × List FoldRec)) (k : String),
      getGroup (rs.foldl addRec acc) k
        = getGroup acc k ++ rs.filter (fun r => dayOf r == k) := by
  induction rs with
  | nil => simp
  | cons r rs ih =>
    intro acc k
    rw [List.foldl_cons, ih, getGroup_addRec]
    by_cases h : dayOf r = k
    · rw [if_pos h, List.filter_cons_of_pos (by simpa using h)]
      simp
    · rw [if_neg h, List.filter_cons_of_neg (by simpa using h)]

/-- The bucket of day `d` in `byDay hs` is the sublist of `hs` on date `d`. -/
lemma getGroup_byDay (hs : List FoldRec) (d : String) :
    getGroup (byDay hs) d = groupOf hs d := by
  rw [byDay, getGroup_foldl, groupOf]
  rfl

/-- The keys of `addRec acc r`: unchanged if the day is already a key,
otherwise the day is appended. -/
lemma addRec_keys (acc : List (String × List FoldRec)) (r : FoldRec) :
    (addRec acc r).map Prod.fst =
      if dayOf r ∈ acc.map Prod.fst then acc.map Prod.fst
      else acc.map Prod.fst ++ [dayOf r] := by
  induction acc with
  | nil => simp [addRec]
  | cons p rest ih =>
    obtain ⟨d, g⟩ := p
    simp only [addRec, List.map_cons]
    by_cases h1 : dayOf r = d
    · rw [if_pos h1, List.map_cons,
        if_pos (by rw [h1]; exact List.mem_cons_self d _)]
    · rw [if_neg h1, List.map_cons, ih]
      by_cases h2 : dayOf r ∈ rest.map Prod.fst
      · rw [if_pos h2, if_pos (List.mem_cons_of_mem d h2)]
      · rw [if_neg h2,
          if_neg (by
            intro hm
            rcases List.mem_cons.mp hm with h | h
            · exact h1 h
            · exact h2 h)]
        rw [List.cons_append]

/-- Key membership in `addRec acc r`. -/
lemma addRec_keys_mem (acc : List (String × List FoldRec)) (r : FoldRec) (k : String) :
    k ∈ (addRec acc r).map Prod.fst ↔ k ∈ acc.map Prod.fst ∨ k = dayOf r := by
  rw [addRec_keys]
  by_cases h : dayOf r ∈ acc.map Prod.fst
  · rw [if_pos h]
    constructor
    · exact fun hk => Or.inl hk
    · intro hk
      cases hk with
      | inl hk => exact hk
      | inr hk => rw [hk]; exact h
  · rw [if_neg h]
    simp

/-- `addRec` preserves key distinctness. -/
lemma addRec_keys_nodup (acc : List (String × List FoldRec)) (r : FoldRec)
    (h : (acc.map Prod.fst).Nodup) : ((addRec acc r).map Prod.fst).Nodup := by
  rw [addRec_keys]
  by_cases hm : dayOf r ∈ acc.map Prod.fst
  · rw [if_pos hm]
    exact h
  · rw [if_neg hm]
    simp only [List.nodup_append, List.nodup_cons, List.not_mem_nil, not_false_iff,
      List.nodup_nil, and_true, true_and]
    exact ⟨h, by simpa [List.disjoint_singleton] using hm⟩

/-- The grouping fold keeps keys distinct. -/
lemma foldl_addRec_keys_nodup (rs : List FoldRec) :
    ∀ acc : List (String × List FoldRec), (acc.map Prod.fst).Nodup →
      ((rs.foldl addRec acc).map Prod.fst).Nodup := by
  induction rs with
  | nil => intro acc h; simpa using h
  | cons r rs ih =>
    intro acc h
    rw [List.foldl_cons]
    exact ih _ (addRec_keys_nodup acc r h)

/-- Key membership after the grouping fold. -/
lemma foldl_addRec_keys_mem (rs : List FoldRec) :
    ∀ (acc : List (String × List FoldRec)) (k : String),
      k ∈ (rs.foldl addRec acc).map Prod.fst
        ↔ k ∈ acc.map Prod.fst ∨ k ∈ rs.map dayOf := by
  induction rs with
  | nil => simp
  | cons r rs ih =>
    intro acc k
    rw [List.foldl_cons, ih, addRec_keys_mem]
    simp only [List.map_cons, List.mem_cons]
    tauto

/-- `byDay` has pairwise-distinct keys. -/
lemma byDay_keys_nodup (hs : List FoldRec) : ((byDay hs).map Prod.fst).Nodup :=
  foldl_addRec_keys_nodup hs [] (by simp)

/-- The keys of `byDay hs` are exactly the days occurring in `hs`. -/
lemma byDay_keys_mem (hs : List FoldRec) (k : String) :
    k ∈ (byDay hs).map Prod.fst ↔ k ∈ hs.map dayOf := by
  rw [byDay, foldl_addRec_keys_mem]
  simp

/-- In an association list with distinct keys, a member pair is what
`getGroup` returns for its key. -/
lemma getGroup_of_mem :
    ∀ (l : List (String × List FoldRec)), (l.map Prod.fst).Nodup →
      ∀ d g, (d, g) ∈ l → getGroup l d = g := by
  intro l
  induction l with
  | nil => intro _ d g h; cases h
  | cons p rest ih =>
    obtain ⟨d0, g0⟩ := p
    intro hnd d g hm
    rcases List.mem_cons.mp hm with heq | hmem
    · have h1 : d = d0 := congrArg Prod.fst heq
      have h2 : g = g0 := congrArg Prod.snd heq
      simp only [getGroup]
      rw [if_pos h1.symm]
      exact h2.symm
    · have hd : d ∈ rest.map Prod.fst := List.mem_map_of_mem Prod.fst hmem
      have hne : d0 ≠ d := by
        intro h
        exact (List.nodup_cons.mp hnd).1 (h ▸ hd)
      simp only [getGroup]
      rw [if_neg hne]
      exact ih (List.nodup_cons.mp hnd).2 d g hmem

/-- Every pair of `byDay hs` is a day together with exactly that day's
records of `hs`. -/
lemma byDay_mem_eq (hs : List FoldRec) (d : String) (g : List FoldRec)
    (h : (d, g) ∈ byDay hs) : g = groupOf hs d := by
  rw [← getGroup_byDay]
  exact (getGroup_of_mem (byDay hs) (byDay_keys_nodup hs) d g h).symm

/-! ### Lemmas about the accumulation and the fold result -/

/-- `float(r.get(k, 0.0))` succeeds (with the absent-to-`0.0` default) on
every field that is not null. -/
lemma pyFloatGet_ok (x : Option (Option ℚ)) (hx : x ≠ some none) :
    pyFloatGet x = .ok (qval x) := by
  match x with
  | none => rfl
  | some none => exact absurd rfl hx
  | some (some v) => rfl

/-- The accumulation loop over a group with no null fields returns the three
totals added to the starting accumulator. -/
lemma foldlM_stepDay :
    ∀ (recs : List FoldRec) (a b c : ℚ),
      (∀ r ∈ recs, r.ghi_w_m2 ≠ some none ∧ r.cloud_cover_pct ≠ some none) →
      recs.foldlM stepDay (a, b, c)
        = .ok (a + sumGhiM recs, b + sumCloud recs, c + sumSunshine recs) := by
  intro recs
  induction recs with
  | nil =>
    intro a b c _
    simp only [List.foldlM_nil, sumGhiM, sumCloud, sumSunshine, List.map_nil,
      List.sum_nil, add_zero]
    rfl
  | cons r rs ih =>
    intro a b c h
    have h1 := (h r (List.mem_cons_self r rs)).1
    have h2 := (h r (List.mem_cons_self r rs)).2
    have hstep : stepDay (a, b, c) r
        = .ok (a + qval r.ghi_w_m2 * 3600 / 1000000,
               b + qval r.cloud_cover_pct,
               c + r.sunshine_duration_s_hour) := by
      unfold stepDay
      rw [pyFloatGet_ok _ h1, pyFloatGet_ok _ h2]
      rfl
    rw [List.foldlM_cons, hstep]
    have hbind :
        (Except.ok (a + qval r.ghi_w_m2 * 3600 / 1000000,
            b + qval r.cloud_cover_pct,
            c + r.sunshine_duration_s_hour) >>=
          fun s => rs.foldlM stepDay s : Except String (ℚ × ℚ × ℚ))
          = rs.foldlM stepDay
              (a + qval r.ghi_w_m2 * 3600 / 1000000,
               b + qval r.cloud_cover_pct,
               c + r.sunshine_duration_s_hour) := rfl
    rw [hbind, ih _ _ _ (fun x hx => h x (List.mem_cons_of_mem r hx))]
    simp only [sumGhiM, sumCloud, sumSunshine, List.map_cons, List.sum_cons,
      Except.ok.injEq, Prod.mk.injEq]
    refine ⟨by ring, by ring, by ring⟩

/-- `mkDaily` on a group with no null fields emits the closed-form
aggregate. -/
lemma mkDaily_ok (daily : List ProvDaily) (d : String) (recs : List FoldRec)
    (h : ∀ r ∈ recs, r.ghi_w_m2 ≠ some none ∧ r.cloud_cover_pct ≠ some none) :
    mkDaily daily d recs
      = .ok { date_utc := d
              sunshine_duration_s := pyOr (provJoined daily d) (sumSunshine recs)
              ghi_daily_total_mj_m2 := sumGhiM recs
              cloud_cover_day_mean_pct := sumCloud recs / max 1 (recs.length : ℚ) } := by
  unfold mkDaily sumDay
  rw [foldlM_stepDay recs 0 0 0 h]
  simp only [zero_add]
  rfl

/-- `mapM` of a function that succeeds pointwise succeeds with the mapped
list. -/
lemma mapM_ok {α β : Type} (f : α → Except String β) (g : α → β) :
    ∀ l : List α, (∀ x ∈ l, f x = .ok (g x)) → l.mapM f = .ok (l.map g) := by
  intro l
  induction l with
  | nil => intro _; rfl
  | cons x xs ih =>
    intro h
    rw [List.mapM_cons, h x (List.mem_cons_self x xs),
      ih (fun y hy => h y (List.mem_cons_of_mem x hy))]
    rfl

/-- The daily fold on an input with no null `ghi_w_m2`/`cloud_cover_pct`
emits exactly one closed-form aggregate per `byDay` group. -/
lemma dailyFold_ok (hs : List FoldRec) (daily : List ProvDaily)
    (h : ∀ r ∈ hs, r.ghi_w_m2 ≠ some none ∧ r.cloud_cover_pct ≠ some none) :
    dailyFold hs daily = .ok ((byDay hs).map (fun p => aggOf daily hs p.1)) := by
  unfold dailyFold
  apply mapM_ok
  intro p hp
  obtain ⟨d, g⟩ := p
  have hg : g = groupOf hs d := byDay_mem_eq hs d g hp
  have hnn : ∀ r ∈ g, r.ghi_w_m2 ≠ some none ∧ r.cloud_cover_pct ≠ some none := by
    intro r hr
    apply h
    rw [hg] at hr
    exact List.mem_of_mem_filter hr
  rw [mkDaily_ok daily d g hnn, hg]
  rfl

/-- **C5**: on any ordered sequence of hourly records (whose optional fields
are numeric or absent, never null — null aborts the fold, see C4), the daily
fold succeeds and emits exactly one aggregate per distinct UTC calendar date
occurring in the input; each aggregate's `ghi_daily_total_mj_m2` is
`Σ ghi·3600/1e6` and its `cloud_cover_day_mean_pct` is the arithmetic mean
of `cloud_cover_pct` over exactly that date's records. -/
theorem daily_fold_one_aggregate_per_date (hs : List FoldRec) (prov : List ProvDaily)
    (Hg : ∀ r ∈ hs, r.ghi_w_m2 ≠ some none)
    (Hc : ∀ r ∈ hs, r.cloud_cover_pct ≠ some none) :
    ∃ aggs, dailyFold hs prov = .ok aggs ∧
      (aggs.map DailyAgg.date_utc).Nodup ∧
      (∀ d, d ∈ aggs.map DailyAgg.date_utc ↔ d ∈ hs.map dayOf) ∧
      ∀ a ∈ aggs,
        a.ghi_daily_total_mj_m2
            = ((hs.filter (fun r => dayOf r == a.date_utc)).map
                (fun r => qval r.ghi_w_m2 * 3600 / 1000000)).sum ∧
          a.cloud_cover_day_mean_pct
            = ((hs.filter (fun r => dayOf r == a.date_utc)).map
                (fun r => qval r.cloud_cover_pct)).sum
              / ((hs.filter (fun r => dayOf r == a.date_utc)).length : ℚ) := by
  have hnn : ∀ r ∈ hs, r.ghi_w_m2 ≠ some none ∧ r.cloud_cover_pct ≠ some none :=
    fun r hr => ⟨Hg r hr, Hc r hr⟩
  have hdates : (((byDay hs).map (fun p => aggOf prov hs p.1)).map DailyAgg.date_utc)
      = (byDay hs).map Prod.fst := by
    rw [List.map_map]
    rfl
  refine ⟨_, dailyFold_ok hs prov hnn, ?_, ?_, ?_⟩
  · rw [hdates]
    exact byDay_keys_nodup hs
  · intro d
    rw [hdates]
    exact byDay_keys_mem hs d
  · intro a ha
    rcases List.mem_map.mp ha with ⟨p, hp, rfl⟩
    obtain ⟨d, g⟩ := p
    constructor
    · rfl
    · have hdmem : d ∈ (byDay hs).map Prod.fst := List.mem_map_of_mem Prod.fst hp
      have hdday : d ∈ hs.map dayOf := (byDay_keys_mem hs d).mp hdmem
      rcases List.mem_map.mp hdday with ⟨r, hr, hrd⟩
      have hrg : r ∈ groupOf hs d := by
        rw [groupOf]
        exact List.mem_filter.mpr ⟨hr, by simpa using hrd⟩
      have hlen : 0 < (groupOf hs d).length :=
        List.length_pos.mpr (List.ne_nil_of_mem hrg)
      have hmax : max 1 ((groupOf hs d).length : ℚ) = ((groupOf hs d).length : ℚ) :=
        max_eq_right (by exact_mod_cast hlen)
      show sumCloud (groupOf hs d) / max 1 ((groupOf hs d).length : ℚ) = _
      rw [hmax]
      rfl

/-- Witness for C5 at the spec's concrete example: three records on
2024-06-01 with GHI 0, 500, 1000 W/m². -/
theorem daily_fold_one_aggregate_per_date_witness :
    ∃ aggs, dailyFold hs3 [] = .ok aggs ∧
      (aggs.map DailyAgg.date_utc).Nodup ∧
      (∀ d, d ∈ aggs.map DailyAgg.date_utc ↔ d ∈ hs3.map dayOf) ∧
      ∀ a ∈ aggs,
        a.ghi_daily_total_mj_m2
            = ((hs3.filter (fun r => dayOf r == a.date_utc)).map
                (fun r => qval r.ghi_w_m2 * 3600 / 1000000)).sum ∧
          a.cloud_cover_day_mean_pct
            = ((hs3.filter (fun r => dayOf r == a.date_utc)).map
                (fun r => qval r.cloud_cover_pct)).sum
              / ((hs3.filter (fun r => dayOf r == a.date_utc)).length : ℚ) :=
  daily_fold_one_aggregate_per_date hs3 [] (by decide) (by decide)

/-- **C8**: every aggregate the daily fold emits carries the matching
provider daily record's `sunshine_duration_s` whenever that value is present
and non-zero (truthy), and otherwise the sum of the group's hourly
`sunshine_duration_s_hour` values (main.py line 169,
`dprov.get("sunshine_duration_s") or sunshine_s`). -/
theorem daily_sunshine_provider_precedence (hs : List FoldRec) (prov : List ProvDaily)
    (Hg : ∀ r ∈ hs, r.ghi_w_m2 ≠ some none)
    (Hc : ∀ r ∈ hs, r.cloud_cover_pct ≠ some none) :
    ∃ aggs, dailyFold hs prov = .ok aggs ∧
      ∀ a ∈ aggs,
        (∀ v, (provLookup prov a.date_utc).bind (fun p => p.sunshine_duration_s.join)
            = some v → v ≠ 0 → a.sunshine_duration_s = v) ∧
        ((provLookup prov a.date_utc).bind (fun p => p.sunshine_duration_s.join) = none ∨
            (provLookup prov a.date_utc).bind (fun p => p.sunshine_duration_s.join) = some 0 →
          a.sunshine_duration_s
            = sumSunshine (hs.filter (fun r => dayOf r == a.date_utc))) := by
  have hnn : ∀ r ∈ hs, r.ghi_w_m2 ≠ some none ∧ r.cloud_cover_pct ≠ some none :=
    fun r hr => ⟨Hg r hr, Hc r hr⟩
  refine ⟨_, dailyFold_ok hs prov hnn, ?_⟩
  intro a ha
  rcases List.mem_map.mp ha with ⟨p, hp, rfl⟩
  constructor
  · intro v hv hv0
    have hv' : provJoined prov p.1 = some v := hv
    show pyOr (provJoined prov p.1) (sumSunshine (groupOf hs p.1)) = v
    rw [pyOr.eq_def, hv']
    simp [hv0]
  · intro hcase
    show pyOr (provJoined prov p.1) (sumSunshine (groupOf hs p.1))
        = sumSunshine (groupOf hs p.1)
    rcases hcase with h | h
    · have h' : provJoined prov p.1 = none := h
      rw [pyOr.eq_def, h']
    · have h' : provJoined prov p.1 = some 0 := h
      rw [pyOr.eq_def, h']
      simp

/-- Witness for C8 at a concrete input: a provider record with a truthy
daily sunshine figure for the day of `hs3`. -/
theorem daily_sunshine_provider_precedence_witness :
    ∃ aggs, dailyFold hs3 prov1 = .ok aggs ∧
      ∀ a ∈ aggs,
        (∀ v, (provLookup prov1 a.date_utc).bind (fun p => p.sunshine_duration_s.join)
            = some v → v ≠ 0 → a.sunshine_duration_s = v) ∧
        ((provLookup prov1 a.date_utc).bind (fun p => p.sunshine_duration_s.join) = none ∨
            (provLookup prov1 a.date_utc).bind (fun p => p.sunshine_duration_s.join) = some 0 →
          a.sunshine_duration_s
            = sumSunshine (hs3.filter (fun r => dayOf r == a.date_utc))) :=
  daily_sunshine_provider_precedence hs3 prov1 (by decide) (by decide)

/-- **C4 (code bug)**: a null-valued optional field is *not* substituted by
`0.0` in the daily fold — it aborts it.  On a record whose
`cloud_cover_pct` key is present with value null (exactly what the
Open-Meteo client emits for missing data), `float(r.get(k, 0.0))` receives
`None` and raises `TypeError` (main.py line 152); the same record with the
key absent instead folds fine with the `0.0` default.  The hourly
derivation itself never raises (it is total by construction,
`raw.get(k) or 0.0`). -/
theorem daily_fold_raises_on_null_optional_field :
    dailyFold [recNullCloud] []
        = .error "TypeError: float() argument must be a string or a real number, not NoneType" ∧
      ∃ a, dailyFold [recAbsentCloud] [] = .ok [a] ∧
        a.date_utc = "2024-06-01" ∧ a.sunshine_duration_s = 3600 ∧
        a.ghi_daily_total_mj_m2 = 1.8 ∧ a.cloud_cover_day_mean_pct = 0 := by
  constructor
  · rfl
  · have hfold : dailyFold [recAbsentCloud] []
        = .ok [aggOf [] [recAbsentCloud] "2024-06-01"] := by
      rw [dailyFold_ok [recAbsentCloud] [] (by decide)]
      rfl
    have hgrp : groupOf [recAbsentCloud] "2024-06-01" = [recAbsentCloud] := rfl
    have hprov : provJoined [] "2024-06-01" = none := rfl
    refine ⟨aggOf [] [recAbsentCloud] "2024-06-01", hfold, rfl, ?_, ?_, ?_⟩
    · show pyOr (provJoined [] "2024-06-01")
          (sumSunshine (groupOf [recAbsentCloud] "2024-06-01")) = 3600
      rw [pyOr.eq_def, hprov, hgrp]
      show recAbsentCloud.sunshine_duration_s_hour + 0 = 3600
      norm_num [recAbsentCloud]
    · show sumGhiM (groupOf [recAbsentCloud] "2024-06-01") = 1.8
      rw [hgrp]
      show qval recAbsentCloud.ghi_w_m2 * 3600 / 1000000 + 0 = 1.8
      norm_num [recAbsentCloud, qval]
    · show sumCloud (groupOf [recAbsentCloud] "2024-06-01")
          / max 1 ((groupOf [recAbsentCloud] "2024-06-01").length : ℚ) = 0
      rw [hgrp]
      show (qval recAbsentCloud.cloud_cover_pct + 0) / max 1 (([recAbsentCloud].length : ℕ) : ℚ) = 0
      norm_num [recAbsentCloud, qval]

end WeatherAddon
